import Mathlib

/-!
Shallow embedding of the Google Cloud DNS reconciliation modules
(gcdns_record.py and gcdns_zone.py).

Each provider call made by a run is recorded in a trace, and every
provider call that can fail is driven by an environment value giving
that call's result, so that one Lean function computes both the
module outcome and the exact sequence of provider calls issued.
-/

/-- The data dict attached to a record: `dict(ttl = ttl, rrdatas = values)`. -/
structure RecordData where
  ttl : Int
  rrdatas : List String
deriving DecidableEq

/-- A provider-side resource record handle (libcloud `Record`).
`zoneDomain` stands for the zone back-reference `record.zone`. -/
structure GRecord where
  name : String
  type : String
  zoneDomain : String
  data : RecordData
deriving DecidableEq

/-- A provider-side zone handle (libcloud `Zone`); `description` is
`zone.extra['description']` and `records` is the result of `zone.list_records()`. -/
structure GZone where
  id : String
  domain : String
  description : String
  records : List GRecord
deriving DecidableEq

/-- Provider / libcloud error signals the modules distinguish:
`RecordDoesNotExistError`, `InvalidRequestError` (with its `code`),
`ResourceExistsError`, `ResourceNotFoundError`, and anything else. -/
inductive PError where
  | recordDoesNotExist
  | invalidRequest (code : String)
  | resourceExists
  | resourceNotFound
  | other (info : String)
deriving DecidableEq

/-- Python exceptions that can escape a function body: provider errors,
the IndexError produced by `name[-1]` on an empty string, and the
AttributeError produced by looking up `pformat` on the `pprint`
function. -/
inductive PyExn where
  | indexError
  | attributeError
  | provider (e : PError)
deriving DecidableEq

/-- How a reconciler function body terminates: a normal return value,
a `fail_json` (which raises SystemExit and is never caught by
`except Exception`), or a raised exception propagating to the caller. -/
inductive FnResult where
  | ret (changed : Bool)
  | failJson (msg : String) (changed : Bool)
  | raised (e : PyExn)
deriving DecidableEq

/-- Module-level outcome: `exit_json(changed=...)`, `fail_json(msg, changed)`,
or an uncaught exception (the module dies with a traceback). -/
inductive Outcome where
  | exitJson (changed : Bool)
  | failJson (msg : String) (changed : Bool)
  | crash (e : PyExn)
deriving DecidableEq

/-- Provider calls a run can issue, recorded in order. -/
inductive Call where
  | iterateZones
  | getRecord (zoneId : String) (recordId : String)
  | listRecords (zoneDomain : String)
  | createRecord (name : String) (zoneDomain : String) (rtype : String) (data : RecordData)
  | deleteRecord (r : GRecord)
  | createZone (domain : String) (description : String)
  | deleteZone (domain : String)
deriving DecidableEq

/-- The calls that mutate provider state (record/zone create and delete). -/
def Call.isMutating : Call → Bool
  | .createRecord _ _ _ _ => true
  | .deleteRecord _ => true
  | .createZone _ _ => true
  | .deleteZone _ => true
  | _ => false

/-- Trailing-dot normalization `if name[-1] != '.': name = name + '.'`.
Indexing `name[-1]` raises IndexError when the string is empty. -/
def normName (s : String) : Except PyExn String :=
  match s.toList.getLast? with
  | none => .error .indexError
  | some c => if c ≠ '.' then .ok (s ++ ".") else .ok s

/-- Models the expression `pprint.pformat(vars(error))` at record:319 and
zone:269.  Both modules import with `from pprint import pprint`
(record:180, zone:139), which binds the name `pprint` to the pprint
*function*, not the module; the attribute access `pprint.pformat` on a
function object therefore raises AttributeError for every error value,
and no dump string is ever produced. -/
def pprint_pformat_vars (_error : PyExn) : Except PyExn String :=
  .error .attributeError

/-- Function _unexpected_error_msg (record:316-319, zone:266-269):
`return 'Unexpected response: ' + pprint.pformat(vars(error))`. The
right operand raises AttributeError before the concatenation, so the
function always raises and never returns its intended message. -/
def _unexpected_error_msg (error : PyExn) : Except PyExn String :=
  (pprint_pformat_vars error).map (fun s => "Unexpected response: " ++ s)

/-- Function _get_zone (identical in both modules): scan `iterate_zones()` for the
first zone whose domain equals the given name; absence is a valid outcome. -/
def _get_zone (zones : List GZone) (zone_name : String) : Option GZone :=
  zones.find? (fun z => z.domain == zone_name)

/-- Lines 400-410 of gcdns_record.py / 319-329 of gcdns_zone.py: the
`try/except Exception` around the state dispatch, then `exit_json`.
A `fail_json` inside the reconciler raises SystemExit, which
`except Exception` does not catch (Python 2.5+), so it passes through.
The handler itself evaluates `_unexpected_error_msg(error)` while
building the `fail_json` arguments; since that call raises
AttributeError, the exception escapes the handler and the module dies
with a traceback instead of reporting the intended message. -/
def handleDispatch : FnResult → Outcome
  | .ret c => .exitJson c
  | .failJson m c => .failJson m c
  | .raised e =>
    match _unexpected_error_msg e with
    | .ok m => .failJson m false
    | .error e2 => .crash e2

namespace GcdnsRecord

/-- The gcdns_record module parameters after `AnsibleModule` parsing
(`overwrite` is already passed through `module.boolean`). -/
structure Params where
  state : String
  record : String
  zone : String
  type : String
  values : List String
  ttl : Int
  overwrite : Bool
deriving DecidableEq

/-- Results of the fallible provider calls a single record run can make:
`gcdns.create_record` (fresh create, or the create after deletion),
`gcdns.delete_record`, and the rollback `gcdns.create_record`. -/
structure RecordEnv where
  createRes : Except PError Unit
  deleteRes : Except PError Unit
  rollbackRes : Except PError Unit

/-- Environment in which every provider mutation succeeds. -/
def successRecordEnv : RecordEnv := ⟨.ok (), .ok (), .ok ()⟩

/-- Function `create_record(module, gcdns, zone, record)` — gcdns_record.py lines 194-260. -/
def create_record (p : Params) (checkMode : Bool) (zone : GZone)
    (record : Option GRecord) (env : RecordEnv) : FnResult × List Call :=
  let data : RecordData := ⟨p.ttl, p.values⟩
  -- Google Cloud DNS wants the trailing dot on all DNS names (lines 205-206).
  match normName p.record with
  | .error e => (.raised e, [])
  | .ok record_name =>
    match record with
    | some r =>
      -- The record exists; does it match the record we want to create?
      if p.ttl = r.data.ttl ∧ p.values = r.data.rrdatas then
        (.ret false, [])
      else if ¬ p.overwrite then
        (.failJson "This record already exists, and overwrite protection is enabled" false, [])
      else if checkMode then (.ret true, [])
      else
        -- Delete the existing record, then recreate with the new information.
        match env.deleteRes with
        | .error e => (.raised (.provider e), [Call.deleteRecord r])
        | .ok _ =>
          match env.createRes with
          | .ok _ =>
            (.ret true,
             [Call.deleteRecord r, Call.createRecord record_name zone.domain p.type data])
          | .error _ =>
            -- Creation blew up; try to roll back before failing out.
            match env.rollbackRes with
            | .ok _ =>
              (.failJson "The attempt to overwrite the record failed due to an error, and the existing record was restored." false,
               [Call.deleteRecord r, Call.createRecord record_name zone.domain p.type data,
                Call.createRecord r.name r.zoneDomain r.type r.data])
            | .error _ =>
              (.failJson "The attempt to overwrite the record failed due to an error, and the existing record was lost." true,
               [Call.deleteRecord r, Call.createRecord record_name zone.domain p.type data,
                Call.createRecord r.name r.zoneDomain r.type r.data])
    | none =>
      if checkMode then (.ret true, [])
      else
        -- No existing record: just create it; only InvalidRequestError is caught.
        match env.createRes with
        | .ok _ => (.ret true, [Call.createRecord record_name zone.domain p.type data])
        | .error (.invalidRequest code) =>
          if code = "invalid" then
            (.failJson "The value is invalid for the given type" false,
             [Call.createRecord record_name zone.domain p.type data])
          else
            (.raised (.provider (.invalidRequest code)),
             [Call.createRecord record_name zone.domain p.type data])
        | .error e =>
          (.raised (.provider e), [Call.createRecord record_name zone.domain p.type data])

/-- Function `remove_record(module, gcdns, record)` — gcdns_record.py lines 262-283. -/
def remove_record (p : Params) (checkMode : Bool)
    (record : Option GRecord) (env : RecordEnv) : FnResult × List Call :=
  match record with
  | none => (.ret false, [])
  | some r =>
    -- Under overwrite protection, the given values must match the record.
    if ¬ p.overwrite ∧ (p.values ≠ r.data.rrdatas ∨ p.ttl ≠ r.data.ttl) then
      (.failJson "Overwrite protection is enabled, and the given values do not match the existing values" false, [])
    else if checkMode then (.ret true, [])
    else
      match env.deleteRes with
      | .ok _ => (.ret true, [Call.deleteRecord r])
      | .error e => (.raised (.provider e), [Call.deleteRecord r])

/-- The record identity key: type and FQDN joined by a colon (line 292). -/
def record_id (record_type record_name : String) : String :=
  record_type ++ ":" ++ record_name

/-- Function `_get_record(gcdns, zone, record_type, record_name)` — lines 287-297:
asks the provider for the identity key; `RecordDoesNotExistError` is a
valid absent outcome, every other error propagates to the caller. -/
def _get_record (getRes : Except PError GRecord) (zone : GZone)
    (record_type record_name : String) : Except PError (Option GRecord) × List Call :=
  match getRes with
  | .ok r => (.ok (some r), [Call.getRecord zone.id (record_id record_type record_name)])
  | .error .recordDoesNotExist =>
    (.ok none, [Call.getRecord zone.id (record_id record_type record_name)])
  | .error e => (.error e, [Call.getRecord zone.id (record_id record_type record_name)])

/-- The provider data a full gcdns_record `main` run consults:
the supported record types (`gcdns.RECORD_TYPE_MAP.keys()`), the zone
listing, the `get_record` result, and the mutation results. -/
structure MainEnv where
  supportedTypes : List String
  zones : List GZone
  getRes : Except PError GRecord
  recEnv : RecordEnv

/-- Function `main()` of gcdns_record.py from the name normalization (lines 366-369)
through `exit_json` (line 410). -/
def main (p : Params) (checkMode : Bool) (env : MainEnv) : Outcome × List Call :=
  match normName p.zone with
  | .error e => (.crash e, [])
  | .ok zone_name =>
  match normName p.record with
  | .error e => (.crash e, [])
  | .ok record_name =>
  if p.type ∉ env.supportedTypes then
    (.failJson "Record type is not supported" false, [])
  else if p.ttl < 0 then
    (.failJson "TTL cannot be less than zero" false, [])
  else
    match _get_zone env.zones zone_name with
    | none => (.failJson ("The zone was not found: " ++ zone_name) false, [Call.iterateZones])
    | some zone =>
      let lookup := _get_record env.getRes zone p.type record_name
      let calls := Call.iterateZones :: lookup.2
      match lookup.1 with
      | .error (.invalidRequest _) =>
        -- Only InvalidRequestError is caught around the record lookup.
        (.failJson ("The record name is invalid: " ++ record_name) false, calls)
      | .error e => (.crash (.provider e), calls)
      | .ok record =>
        let fr :=
          if p.state = "present" then create_record p checkMode zone record env.recEnv
          else if p.state = "absent" then remove_record p checkMode record env.recEnv
          else (.failJson ("Unknown state : " ++ p.state) false, [])
        (handleDispatch fr.1, calls ++ fr.2)

end GcdnsRecord

namespace GcdnsZone

/-- The gcdns_zone module parameters after `AnsibleModule` parsing
(`require_extra` is already passed through `module.boolean`). -/
structure Params where
  state : String
  zone : String
  description : String
  require_extra : Bool
deriving DecidableEq

/-- Results of the fallible provider calls a single zone run can make:
`gcdns.create_zone` and `gcdns.delete_zone`. -/
structure ZoneEnv where
  createRes : Except PError Unit
  deleteRes : Except PError Unit

/-- Environment in which every provider mutation succeeds. -/
def successZoneEnv : ZoneEnv := ⟨.ok (), .ok ()⟩

/-- Function `create_zone(module, gcdns, zone)` — gcdns_zone.py lines 153-209. -/
def create_zone (p : Params) (checkMode : Bool) (zone : Option GZone)
    (env : ZoneEnv) : FnResult × List Call :=
  -- Google Cloud DNS wants the trailing dot on the domain name (lines 162-163).
  match normName p.zone with
  | .error e => (.raised e, [])
  | .ok zone_name =>
    match zone with
    | some z =>
      if ¬ p.require_extra then
        -- The zone we want to create already exists, so we're done.
        (.ret false, [])
      else if z.description ≠ p.description then
        (.failJson "Existing zone description differs and cannot be updated" false, [])
      else (.ret false, [])
    | none =>
      if checkMode then (.ret true, [])
      else
        match env.createRes with
        | .ok _ => (.ret true, [Call.createZone zone_name p.description])
        | .error .resourceExists =>
          -- Someone created the zone between our check and the create call.
          if p.require_extra then
            (.failJson "The zone already exists, but params could not be verified" false,
             [Call.createZone zone_name p.description])
          else (.ret false, [Call.createZone zone_name p.description])
        | .error (.invalidRequest code) =>
          if code = "invalid" then
            (.failJson "The zone name, or a parameter, was invalid" false,
             [Call.createZone zone_name p.description])
          else if code = "managedZoneDnsNameNotAvailable" then
            (.failJson "The zone name is reserved" false,
             [Call.createZone zone_name p.description])
          else
            (.raised (.provider (.invalidRequest code)),
             [Call.createZone zone_name p.description])
        | .error e => (.raised (.provider e), [Call.createZone zone_name p.description])

/-- Function `remove_zone(module, gcdns, zone)` — gcdns_zone.py lines 211-245. -/
def remove_zone (checkMode : Bool) (zone : Option GZone)
    (env : ZoneEnv) : FnResult × List Call :=
  match zone with
  | none => (.ret false, [])
  | some z =>
    -- An empty zone holds exactly the two system records (NS and SOA).
    if z.records.length > 2 then
      (.failJson ("Cannot remove non-empty zone: " ++ z.domain) false,
       [Call.listRecords z.domain])
    else if checkMode then (.ret true, [Call.listRecords z.domain])
    else
      match env.deleteRes with
      | .ok _ => (.ret true, [Call.listRecords z.domain, Call.deleteZone z.domain])
      | .error .resourceNotFound =>
        -- The zone was deleted by something else in the interim. It's gone.
        (.ret false, [Call.listRecords z.domain, Call.deleteZone z.domain])
      | .error (.invalidRequest code) =>
        if code = "containerNotEmpty" then
          -- Records were added between our check and the removal command.
          (.failJson ("Cannot remove non-empty zone: " ++ z.domain) false,
           [Call.listRecords z.domain, Call.deleteZone z.domain])
        else
          (.raised (.provider (.invalidRequest code)),
           [Call.listRecords z.domain, Call.deleteZone z.domain])
      | .error e =>
        (.raised (.provider e), [Call.listRecords z.domain, Call.deleteZone z.domain])

/-- The provider data a full gcdns_zone `main` run consults. -/
structure MainEnv where
  zones : List GZone
  zoneEnv : ZoneEnv

/-- Function `main()` of gcdns_zone.py from the name normalization (lines 309-310)
through `exit_json` (line 329). -/
def main (p : Params) (checkMode : Bool) (env : MainEnv) : Outcome × List Call :=
  match normName p.zone with
  | .error e => (.crash e, [])
  | .ok zone_name =>
    let zone := _get_zone env.zones zone_name
    let fr :=
      if p.state = "present" then create_zone p checkMode zone env.zoneEnv
      else if p.state = "absent" then remove_zone checkMode zone env.zoneEnv
      else (.failJson ("Unknown state : " ++ p.state) false, [])
    (handleDispatch fr.1, Call.iterateZones :: fr.2)

end GcdnsZone

/-- Whether an outcome is a `fail_json` reporting `changed=false`. -/
def reportsChangedFalseFailure : Outcome → Bool
  | .failJson _ false => true
  | _ => false

/-- Whether an outcome is any `fail_json` at all. -/
def isFailJson : Outcome → Bool
  | .failJson _ _ => true
  | _ => false

/-- C2: with an existing record present, the desired (ttl, values) are
compared to the current ones by exact integer and ordered-list equality;
equality gives changed=false with no provider call, and a difference with
overwrite disabled gives the fatal overwrite-protection error with
changed=false and no provider call. -/
theorem claim_C2_present_exact_compare
    (p : GcdnsRecord.Params) (checkMode : Bool) (zone : GZone) (r : GRecord)
    (env : GcdnsRecord.RecordEnv) (rn : String)
    (hn : normName p.record = .ok rn) :
    (p.ttl = r.data.ttl ∧ p.values = r.data.rrdatas →
      GcdnsRecord.create_record p checkMode zone (some r) env = (.ret false, []))
    ∧ (¬ (p.ttl = r.data.ttl ∧ p.values = r.data.rrdatas) → p.overwrite = false →
      GcdnsRecord.create_record p checkMode zone (some r) env =
        (.failJson "This record already exists, and overwrite protection is enabled" false, [])) := by
  unfold GcdnsRecord.create_record
  rw [hn]
  constructor
  · intro h
    simp [h]
  · intro h hov
    simp [h, hov]

/-- Witness for C2 at concrete inputs: a matching record is a no-op, and a
value difference under overwrite protection fails with changed=false. -/
theorem claim_C2_witness :
    GcdnsRecord.create_record ⟨"present", "www.foo.com", "foo.com", "A", ["1.2.3.4"], 300, false⟩
        true ⟨"z1", "foo.com.", "", []⟩
        (some ⟨"www.foo.com.", "A", "foo.com.", ⟨300, ["1.2.3.4"]⟩⟩)
        ⟨.ok (), .ok (), .ok ()⟩ = (.ret false, [])
    ∧ GcdnsRecord.create_record ⟨"present", "www.foo.com", "foo.com", "A", ["5.6.7.8"], 300, false⟩
        false ⟨"z1", "foo.com.", "", []⟩
        (some ⟨"www.foo.com.", "A", "foo.com.", ⟨300, ["1.2.3.4"]⟩⟩)
        ⟨.ok (), .ok (), .ok ()⟩ =
      (.failJson "This record already exists, and overwrite protection is enabled" false, []) := by
  constructor
  · exact (claim_C2_present_exact_compare
      ⟨"present", "www.foo.com", "foo.com", "A", ["1.2.3.4"], 300, false⟩ true
      ⟨"z1", "foo.com.", "", []⟩ ⟨"www.foo.com.", "A", "foo.com.", ⟨300, ["1.2.3.4"]⟩⟩
      ⟨.ok (), .ok (), .ok ()⟩ "www.foo.com." rfl).1 (by decide)
  · exact (claim_C2_present_exact_compare
      ⟨"present", "www.foo.com", "foo.com", "A", ["5.6.7.8"], 300, false⟩ false
      ⟨"z1", "foo.com.", "", []⟩ ⟨"www.foo.com.", "A", "foo.com.", ⟨300, ["1.2.3.4"]⟩⟩
      ⟨.ok (), .ok (), .ok ()⟩ "www.foo.com." rfl).2 (by decide) rfl

/-- C1: on the overwrite path (existing record differs, overwrite enabled),
after a successful delete and a failed create, the original record is
recreated; a successful rollback fails with the "restored" message and
changed=false, and a failed rollback fails with the "lost" message and
changed=true.  The rollback call recreates the original record from its
own name, zone, type and data. -/
theorem claim_C1_overwrite_rollback
    (p : GcdnsRecord.Params) (zone : GZone) (r : GRecord)
    (env : GcdnsRecord.RecordEnv) (rn : String) (e : PError)
    (hn : normName p.record = .ok rn)
    (hdiff : ¬ (p.ttl = r.data.ttl ∧ p.values = r.data.rrdatas))
    (hov : p.overwrite = true)
    (hdel : env.deleteRes = .ok ())
    (hcre : env.createRes = .error e) :
    (env.rollbackRes = .ok () →
      GcdnsRecord.create_record p false zone (some r) env =
        (.failJson "The attempt to overwrite the record failed due to an error, and the existing record was restored." false,
         [Call.deleteRecord r, Call.createRecord rn zone.domain p.type ⟨p.ttl, p.values⟩,
          Call.createRecord r.name r.zoneDomain r.type r.data]))
    ∧ (∀ e2 : PError, env.rollbackRes = .error e2 →
      GcdnsRecord.create_record p false zone (some r) env =
        (.failJson "The attempt to overwrite the record failed due to an error, and the existing record was lost." true,
         [Call.deleteRecord r, Call.createRecord rn zone.domain p.type ⟨p.ttl, p.values⟩,
          Call.createRecord r.name r.zoneDomain r.type r.data])) := by
  unfold GcdnsRecord.create_record
  rw [hn, hdel, hcre]
  constructor
  · intro hrb
    rw [hrb]
    simp [hdiff, hov]
  · intro e2 hrb
    rw [hrb]
    simp [hdiff, hov]

/-- Witness for C1 at concrete inputs: both the restored and the lost
rollback outcomes, with the exact messages and changed flags. -/
theorem claim_C1_witness :
    GcdnsRecord.create_record ⟨"present", "www.foo.com", "foo.com", "A", ["5.6.7.8"], 300, true⟩
        false ⟨"z1", "foo.com.", "", []⟩
        (some ⟨"www.foo.com.", "A", "foo.com.", ⟨300, ["1.2.3.4"]⟩⟩)
        ⟨.error (.other "boom"), .ok (), .ok ()⟩ =
      (.failJson "The attempt to overwrite the record failed due to an error, and the existing record was restored." false,
       [Call.deleteRecord ⟨"www.foo.com.", "A", "foo.com.", ⟨300, ["1.2.3.4"]⟩⟩,
        Call.createRecord "www.foo.com." "foo.com." "A" ⟨300, ["5.6.7.8"]⟩,
        Call.createRecord "www.foo.com." "foo.com." "A" ⟨300, ["1.2.3.4"]⟩])
    ∧ GcdnsRecord.create_record ⟨"present", "www.foo.com", "foo.com", "A", ["5.6.7.8"], 300, true⟩
        false ⟨"z1", "foo.com.", "", []⟩
        (some ⟨"www.foo.com.", "A", "foo.com.", ⟨300, ["1.2.3.4"]⟩⟩)
        ⟨.error (.other "boom"), .ok (), .error (.other "boom2")⟩ =
      (.failJson "The attempt to overwrite the record failed due to an error, and the existing record was lost." true,
       [Call.deleteRecord ⟨"www.foo.com.", "A", "foo.com.", ⟨300, ["1.2.3.4"]⟩⟩,
        Call.createRecord "www.foo.com." "foo.com." "A" ⟨300, ["5.6.7.8"]⟩,
        Call.createRecord "www.foo.com." "foo.com." "A" ⟨300, ["1.2.3.4"]⟩]) := by
  constructor
  · exact (claim_C1_overwrite_rollback
      ⟨"present", "www.foo.com", "foo.com", "A", ["5.6.7.8"], 300, true⟩
      ⟨"z1", "foo.com.", "", []⟩ ⟨"www.foo.com.", "A", "foo.com.", ⟨300, ["1.2.3.4"]⟩⟩
      ⟨.error (.other "boom"), .ok (), .ok ()⟩ "www.foo.com." (.other "boom") rfl
      (by decide) rfl rfl rfl).1 rfl
  · exact (claim_C1_overwrite_rollback
      ⟨"present", "www.foo.com", "foo.com", "A", ["5.6.7.8"], 300, true⟩
      ⟨"z1", "foo.com.", "", []⟩ ⟨"www.foo.com.", "A", "foo.com.", ⟨300, ["1.2.3.4"]⟩⟩
      ⟨.error (.other "boom"), .ok (), .error (.other "boom2")⟩ "www.foo.com." (.other "boom") rfl
      (by decide) rfl rfl rfl).2 (.other "boom2") rfl

/-- C3: absent-state record reconciliation: no current record is a
changed=false no-op with no provider call; with a record and overwrite
disabled, a (ttl, values) mismatch is the fatal overwrite-protection
error with changed=false and no provider call, while a match proceeds to
deletion; with overwrite enabled the result ignores the declared values
and ttl entirely and deletion proceeds; a completed deletion returns
changed=true. -/
theorem claim_C3_absent_record_reconciliation
    (p : GcdnsRecord.Params) (checkMode : Bool) (r : GRecord)
    (env : GcdnsRecord.RecordEnv) :
    (GcdnsRecord.remove_record p checkMode none env = (.ret false, []))
    ∧ (p.overwrite = false → (p.values ≠ r.data.rrdatas ∨ p.ttl ≠ r.data.ttl) →
      GcdnsRecord.remove_record p checkMode (some r) env =
        (.failJson "Overwrite protection is enabled, and the given values do not match the existing values" false, []))
    ∧ (p.overwrite = false → p.values = r.data.rrdatas → p.ttl = r.data.ttl →
       checkMode = false → env.deleteRes = .ok () →
      GcdnsRecord.remove_record p checkMode (some r) env = (.ret true, [Call.deleteRecord r]))
    ∧ (∀ (s rc z ty : String) (v v2 : List String) (t t2 : Int),
      GcdnsRecord.remove_record ⟨s, rc, z, ty, v, t, true⟩ checkMode (some r) env =
        GcdnsRecord.remove_record ⟨s, rc, z, ty, v2, t2, true⟩ checkMode (some r) env)
    ∧ (p.overwrite = true → checkMode = false → env.deleteRes = .ok () →
      GcdnsRecord.remove_record p checkMode (some r) env = (.ret true, [Call.deleteRecord r])) := by
  refine ⟨rfl, ?_, ?_, ?_, ?_⟩
  · intro hov h
    unfold GcdnsRecord.remove_record
    simp [hov, h]
  · intro hov hv ht hcm hdel
    unfold GcdnsRecord.remove_record
    rw [hcm]
    simp [hov, hv, ht, hdel]
  · intro s rc z ty v v2 t t2
    unfold GcdnsRecord.remove_record
    simp
  · intro hov hcm hdel
    unfold GcdnsRecord.remove_record
    rw [hcm]
    simp [hov, hdel]

/-- Witness for C3 at concrete inputs: overwrite-protection failure on a
value mismatch, and a completed deletion reporting changed=true. -/
theorem claim_C3_witness :
    GcdnsRecord.remove_record ⟨"absent", "www.foo.com", "foo.com", "A", ["9.9.9.9"], 300, false⟩
        false (some ⟨"www.foo.com.", "A", "foo.com.", ⟨300, ["1.2.3.4"]⟩⟩) ⟨.ok (), .ok (), .ok ()⟩ =
      (.failJson "Overwrite protection is enabled, and the given values do not match the existing values" false, [])
    ∧ GcdnsRecord.remove_record ⟨"absent", "www.foo.com", "foo.com", "A", [], 0, true⟩
        false (some ⟨"www.foo.com.", "A", "foo.com.", ⟨300, ["1.2.3.4"]⟩⟩) ⟨.ok (), .ok (), .ok ()⟩ =
      (.ret true, [Call.deleteRecord ⟨"www.foo.com.", "A", "foo.com.", ⟨300, ["1.2.3.4"]⟩⟩]) := by
  constructor
  · exact (claim_C3_absent_record_reconciliation
      ⟨"absent", "www.foo.com", "foo.com", "A", ["9.9.9.9"], 300, false⟩ false
      ⟨"www.foo.com.", "A", "foo.com.", ⟨300, ["1.2.3.4"]⟩⟩
      ⟨.ok (), .ok (), .ok ()⟩).2.1 rfl (by decide)
  · exact (claim_C3_absent_record_reconciliation
      ⟨"absent", "www.foo.com", "foo.com", "A", [], 0, true⟩ false
      ⟨"www.foo.com.", "A", "foo.com.", ⟨300, ["1.2.3.4"]⟩⟩
      ⟨.ok (), .ok (), .ok ()⟩).2.2.2.2 rfl rfl rfl

/-- C4: absent-state zone reconciliation with an existing zone: the zone
record count is consulted first and more than two records is the fatal
non-empty-zone error with changed=false and no delete call; otherwise the
delete is attempted, and a not-found signal is a changed=false no-op, a
containerNotEmpty signal is the same fatal non-empty message with
changed=false, and a successful delete reports changed=true. -/
theorem claim_C4_remove_zone_guard
    (z : GZone) (env : GcdnsZone.ZoneEnv) :
    (z.records.length > 2 →
      GcdnsZone.remove_zone false (some z) env =
        (.failJson ("Cannot remove non-empty zone: " ++ z.domain) false,
         [Call.listRecords z.domain]))
    ∧ (z.records.length ≤ 2 → env.deleteRes = .ok () →
      GcdnsZone.remove_zone false (some z) env =
        (.ret true, [Call.listRecords z.domain, Call.deleteZone z.domain]))
    ∧ (z.records.length ≤ 2 → env.deleteRes = .error .resourceNotFound →
      GcdnsZone.remove_zone false (some z) env =
        (.ret false, [Call.listRecords z.domain, Call.deleteZone z.domain]))
    ∧ (z.records.length ≤ 2 → env.deleteRes = .error (.invalidRequest "containerNotEmpty") →
      GcdnsZone.remove_zone false (some z) env =
        (.failJson ("Cannot remove non-empty zone: " ++ z.domain) false,
         [Call.listRecords z.domain, Call.deleteZone z.domain])) := by
  refine ⟨?_, ?_, ?_, ?_⟩
  · intro hlen
    unfold GcdnsZone.remove_zone
    simp [hlen]
  · intro hlen hdel
    unfold GcdnsZone.remove_zone
    rw [hdel]
    simp [Nat.not_lt.mpr hlen]
  · intro hlen hdel
    unfold GcdnsZone.remove_zone
    rw [hdel]
    simp [Nat.not_lt.mpr hlen]
  · intro hlen hdel
    unfold GcdnsZone.remove_zone
    rw [hdel]
    simp [Nat.not_lt.mpr hlen]

/-- Witness for C4 at concrete inputs: a three-record zone is protected
without any delete attempt, and an empty zone deletes with changed=true. -/
theorem claim_C4_witness :
    GcdnsZone.remove_zone false
        (some ⟨"z1", "foo.com.", "", [⟨"a", "NS", "foo.com.", ⟨1, []⟩⟩,
          ⟨"b", "SOA", "foo.com.", ⟨1, []⟩⟩, ⟨"c", "A", "foo.com.", ⟨1, []⟩⟩]⟩)
        ⟨.ok (), .ok ()⟩ =
      (.failJson "Cannot remove non-empty zone: foo.com." false, [Call.listRecords "foo.com."])
    ∧ GcdnsZone.remove_zone false
        (some ⟨"z1", "foo.com.", "", [⟨"a", "NS", "foo.com.", ⟨1, []⟩⟩,
          ⟨"b", "SOA", "foo.com.", ⟨1, []⟩⟩]⟩) ⟨.ok (), .ok ()⟩ =
      (.ret true, [Call.listRecords "foo.com.", Call.deleteZone "foo.com."]) := by
  constructor
  · exact (claim_C4_remove_zone_guard
      ⟨"z1", "foo.com.", "", [⟨"a", "NS", "foo.com.", ⟨1, []⟩⟩,
        ⟨"b", "SOA", "foo.com.", ⟨1, []⟩⟩, ⟨"c", "A", "foo.com.", ⟨1, []⟩⟩]⟩
      ⟨.ok (), .ok ()⟩).1 (by decide)
  · exact (claim_C4_remove_zone_guard
      ⟨"z1", "foo.com.", "", [⟨"a", "NS", "foo.com.", ⟨1, []⟩⟩,
        ⟨"b", "SOA", "foo.com.", ⟨1, []⟩⟩]⟩ ⟨.ok (), .ok ()⟩).2.1 (by decide) rfl

/-- C5: present-state zone reconciliation where the zone was absent at
lookup time but the provider reports already-exists during creation: the
race is tolerated as changed=false when require_extra is false, and is a
fatal error with changed=false when require_extra is true. -/
theorem claim_C5_zone_create_race
    (p : GcdnsZone.Params) (env : GcdnsZone.ZoneEnv) (zn : String)
    (hn : normName p.zone = .ok zn)
    (hcre : env.createRes = .error .resourceExists) :
    (p.require_extra = false →
      GcdnsZone.create_zone p false none env =
        (.ret false, [Call.createZone zn p.description]))
    ∧ (p.require_extra = true →
      GcdnsZone.create_zone p false none env =
        (.failJson "The zone already exists, but params could not be verified" false,
         [Call.createZone zn p.description])) := by
  unfold GcdnsZone.create_zone
  rw [hn, hcre]
  constructor
  · intro h
    simp [h]
  · intro h
    simp [h]

/-- Witness for C5 at concrete inputs: both require_extra settings. -/
theorem claim_C5_witness :
    GcdnsZone.create_zone ⟨"present", "foo.com", "", false⟩ false none
        ⟨.error .resourceExists, .ok ()⟩ =
      (.ret false, [Call.createZone "foo.com." ""])
    ∧ GcdnsZone.create_zone ⟨"present", "foo.com", "", true⟩ false none
        ⟨.error .resourceExists, .ok ()⟩ =
      (.failJson "The zone already exists, but params could not be verified" false,
       [Call.createZone "foo.com." ""]) := by
  constructor
  · exact (claim_C5_zone_create_race ⟨"present", "foo.com", "", false⟩
      ⟨.error .resourceExists, .ok ()⟩ "foo.com." rfl rfl).1 rfl
  · exact (claim_C5_zone_create_race ⟨"present", "foo.com", "", true⟩
      ⟨.error .resourceExists, .ok ()⟩ "foo.com." rfl rfl).2 rfl

lemma dryrun_create_record (p : GcdnsRecord.Params) (zone : GZone)
    (record : Option GRecord) (env : GcdnsRecord.RecordEnv) :
    (GcdnsRecord.create_record p true zone record env).2.filter Call.isMutating = []
    ∧ (GcdnsRecord.create_record p true zone record env).1 =
      (GcdnsRecord.create_record p false zone record GcdnsRecord.successRecordEnv).1 := by
  unfold GcdnsRecord.create_record GcdnsRecord.successRecordEnv
  cases hn : normName p.record with
  | error e => simp
  | ok rn =>
    cases record with
    | none => simp
    | some r =>
      by_cases h1 : p.ttl = r.data.ttl ∧ p.values = r.data.rrdatas
      · simp [h1]
      · by_cases h2 : p.overwrite = true
        · simp [h1, h2]
        · simp [h1, h2]

lemma dryrun_remove_record (p : GcdnsRecord.Params)
    (record : Option GRecord) (env : GcdnsRecord.RecordEnv) :
    (GcdnsRecord.remove_record p true record env).2.filter Call.isMutating = []
    ∧ (GcdnsRecord.remove_record p true record env).1 =
      (GcdnsRecord.remove_record p false record GcdnsRecord.successRecordEnv).1 := by
  unfold GcdnsRecord.remove_record GcdnsRecord.successRecordEnv
  cases record with
  | none => simp
  | some r =>
    by_cases h1 : p.overwrite = false ∧ (¬ p.values = r.data.rrdatas ∨ ¬ p.ttl = r.data.ttl)
    · simp [h1]
    · simp [h1]

lemma dryrun_create_zone (p : GcdnsZone.Params)
    (zone : Option GZone) (env : GcdnsZone.ZoneEnv) :
    (GcdnsZone.create_zone p true zone env).2.filter Call.isMutating = []
    ∧ (GcdnsZone.create_zone p true zone env).1 =
      (GcdnsZone.create_zone p false zone GcdnsZone.successZoneEnv).1 := by
  unfold GcdnsZone.create_zone GcdnsZone.successZoneEnv
  cases hn : normName p.zone with
  | error e => simp
  | ok zn =>
    cases zone with
    | none => simp
    | some z =>
      by_cases h1 : p.require_extra = true
      · by_cases h2 : z.description = p.description
        · simp [h1, h2]
        · simp [h1, h2]
      · simp [h1]

lemma dryrun_remove_zone (zone : Option GZone) (env : GcdnsZone.ZoneEnv) :
    (GcdnsZone.remove_zone true zone env).2.filter Call.isMutating = []
    ∧ (GcdnsZone.remove_zone true zone env).1 =
      (GcdnsZone.remove_zone false zone GcdnsZone.successZoneEnv).1 := by
  unfold GcdnsZone.remove_zone GcdnsZone.successZoneEnv
  cases zone with
  | none => simp
  | some z =>
    by_cases h1 : z.records.length > 2
    · simp [h1, Call.isMutating]
    · simp [h1, Call.isMutating]

lemma dryrun_main_record (p : GcdnsRecord.Params) (env : GcdnsRecord.MainEnv) :
    (GcdnsRecord.main p true env).2.filter Call.isMutating = []
    ∧ (GcdnsRecord.main p true env).1 =
      (GcdnsRecord.main p false
        ⟨env.supportedTypes, env.zones, env.getRes, GcdnsRecord.successRecordEnv⟩).1 := by
  unfold GcdnsRecord.main
  cases hz : normName p.zone with
  | error e => simp
  | ok zn =>
    cases hr : normName p.record with
    | error e => simp
    | ok rn =>
      by_cases ht : p.type ∈ env.supportedTypes
      · by_cases httl : p.ttl < 0
        · simp [ht, httl]
        · cases hfz : _get_zone env.zones zn with
          | none => simp [ht, httl, hfz, Call.isMutating]
          | some zone =>
            simp only [ht, httl, hfz]
            unfold GcdnsRecord._get_record
            cases hg : env.getRes with
            | ok r =>
              simp only [Call.isMutating]
              by_cases hs : p.state = "present"
              · have h := dryrun_create_record p zone (some r) env.recEnv
                simp [hs, Call.isMutating, List.filter_append, h.1, h.2]
              · by_cases hs2 : p.state = "absent"
                · have h := dryrun_remove_record p (some r) env.recEnv
                  simp [hs, hs2, Call.isMutating, List.filter_append, h.1, h.2]
                · simp [hs, hs2, Call.isMutating]
            | error e =>
              cases e with
              | recordDoesNotExist =>
                simp only [Call.isMutating]
                by_cases hs : p.state = "present"
                · have h := dryrun_create_record p zone none env.recEnv
                  simp [hs, Call.isMutating, List.filter_append, h.1, h.2]
                · by_cases hs2 : p.state = "absent"
                  · have h := dryrun_remove_record p none env.recEnv
                    simp [hs, hs2, Call.isMutating, List.filter_append, h.1, h.2]
                  · simp [hs, hs2, Call.isMutating]
              | invalidRequest code => simp [Call.isMutating]
              | resourceExists => simp [Call.isMutating]
              | resourceNotFound => simp [Call.isMutating]
              | other info => simp [Call.isMutating]
      · simp [ht]

lemma dryrun_main_zone (p : GcdnsZone.Params) (env : GcdnsZone.MainEnv) :
    (GcdnsZone.main p true env).2.filter Call.isMutating = []
    ∧ (GcdnsZone.main p true env).1 =
      (GcdnsZone.main p false ⟨env.zones, GcdnsZone.successZoneEnv⟩).1 := by
  unfold GcdnsZone.main
  cases hz : normName p.zone with
  | error e => simp
  | ok zn =>
    by_cases hs : p.state = "present"
    · have h := dryrun_create_zone p (_get_zone env.zones zn) env.zoneEnv
      simp [hs, Call.isMutating, h.1, h.2]
    · by_cases hs2 : p.state = "absent"
      · have h := dryrun_remove_zone (_get_zone env.zones zn) env.zoneEnv
        simp [hs, hs2, Call.isMutating, h.1, h.2]
      · simp [hs, hs2, Call.isMutating]

/-- C6: dry-run (check mode) runs the same comparison and decision logic,
issues no mutating provider call, and reports the same changed value /
failure as a real run in which every mutation succeeds — for both
reconcilers of each module and for both full module runs. -/
theorem claim_C6_dry_run_frame
    (p : GcdnsRecord.Params) (zone : GZone) (record : Option GRecord)
    (env : GcdnsRecord.RecordEnv) (menv : GcdnsRecord.MainEnv)
    (q : GcdnsZone.Params) (zopt : Option GZone) (zenv : GcdnsZone.ZoneEnv)
    (mzenv : GcdnsZone.MainEnv) :
    ((GcdnsRecord.create_record p true zone record env).2.filter Call.isMutating = []
      ∧ (GcdnsRecord.create_record p true zone record env).1 =
        (GcdnsRecord.create_record p false zone record GcdnsRecord.successRecordEnv).1)
    ∧ ((GcdnsRecord.remove_record p true record env).2.filter Call.isMutating = []
      ∧ (GcdnsRecord.remove_record p true record env).1 =
        (GcdnsRecord.remove_record p false record GcdnsRecord.successRecordEnv).1)
    ∧ ((GcdnsZone.create_zone q true zopt zenv).2.filter Call.isMutating = []
      ∧ (GcdnsZone.create_zone q true zopt zenv).1 =
        (GcdnsZone.create_zone q false zopt GcdnsZone.successZoneEnv).1)
    ∧ ((GcdnsZone.remove_zone true zopt zenv).2.filter Call.isMutating = []
      ∧ (GcdnsZone.remove_zone true zopt zenv).1 =
        (GcdnsZone.remove_zone false zopt GcdnsZone.successZoneEnv).1)
    ∧ ((GcdnsRecord.main p true menv).2.filter Call.isMutating = []
      ∧ (GcdnsRecord.main p true menv).1 =
        (GcdnsRecord.main p false
          ⟨menv.supportedTypes, menv.zones, menv.getRes, GcdnsRecord.successRecordEnv⟩).1)
    ∧ ((GcdnsZone.main q true mzenv).2.filter Call.isMutating = []
      ∧ (GcdnsZone.main q true mzenv).1 =
        (GcdnsZone.main q false ⟨mzenv.zones, GcdnsZone.successZoneEnv⟩).1) :=
  ⟨dryrun_create_record p zone record env,
   dryrun_remove_record p record env,
   dryrun_create_zone q zopt zenv,
   dryrun_remove_zone zopt zenv,
   dryrun_main_record p menv,
   dryrun_main_zone q mzenv⟩

/-- C7 counterexample: with an empty zone name the run dies with an
uncaught IndexError from `zone_name[-1]`; it performs no provider call,
but it is not a `fail_json` reporting changed=false, contrary to the
claim that every validation failure reports changed=false. -/
theorem claim_C7_counterexample :
    GcdnsRecord.main ⟨"present", "foo.com", "", "A", ["1.2.3.4"], 300, false⟩ false
        ⟨["A"], [], .error .recordDoesNotExist, ⟨.ok (), .ok (), .ok ()⟩⟩ =
      (.crash .indexError, [])
    ∧ reportsChangedFalseFailure
        (GcdnsRecord.main ⟨"present", "foo.com", "", "A", ["1.2.3.4"], 300, false⟩ false
          ⟨["A"], [], .error .recordDoesNotExist, ⟨.ok (), .ok (), .ok ()⟩⟩).1 = false := by
  exact ⟨rfl, rfl⟩

/-- C7 (amended): an unsupported record type or a negative ttl is a fatal
validation error reporting changed=false with no provider call at all;
an empty domain or record name instead terminates the run with an
uncaught IndexError raised by the trailing-dot normalization — still
fatal and free of provider calls, but reporting no changed value. -/
theorem claim_C7_validation_failures
    (p : GcdnsRecord.Params) (cm : Bool) (env : GcdnsRecord.MainEnv)
    (q : GcdnsZone.Params) (zenv : GcdnsZone.MainEnv) (zn rn : String) :
    (normName p.zone = .ok zn → normName p.record = .ok rn →
     p.type ∉ env.supportedTypes →
      GcdnsRecord.main p cm env = (.failJson "Record type is not supported" false, []))
    ∧ (normName p.zone = .ok zn → normName p.record = .ok rn →
       p.type ∈ env.supportedTypes → p.ttl < 0 →
      GcdnsRecord.main p cm env = (.failJson "TTL cannot be less than zero" false, []))
    ∧ (p.zone = "" → GcdnsRecord.main p cm env = (.crash .indexError, []))
    ∧ (normName p.zone = .ok zn → p.record = "" →
      GcdnsRecord.main p cm env = (.crash .indexError, []))
    ∧ (q.zone = "" → GcdnsZone.main q cm zenv = (.crash .indexError, [])) := by
  have hempty : normName "" = .error .indexError := rfl
  refine ⟨?_, ?_, ?_, ?_, ?_⟩
  · intro hz hr ht
    unfold GcdnsRecord.main
    rw [hz, hr]
    simp [ht]
  · intro hz hr ht httl
    unfold GcdnsRecord.main
    rw [hz, hr]
    simp [ht, httl]
  · intro h
    unfold GcdnsRecord.main
    rw [h, hempty]
  · intro hz h
    unfold GcdnsRecord.main
    rw [hz, h, hempty]
  · intro h
    unfold GcdnsZone.main
    rw [h, hempty]

/-- Witness for the amended C7 at concrete inputs: unsupported type,
negative ttl, and the two empty-name crashes. -/
theorem claim_C7_witness :
    GcdnsRecord.main ⟨"present", "www.foo.com", "foo.com", "NAPTR", ["x"], 300, false⟩ false
        ⟨["A", "MX"], [], .error .recordDoesNotExist, ⟨.ok (), .ok (), .ok ()⟩⟩ =
      (.failJson "Record type is not supported" false, [])
    ∧ GcdnsRecord.main ⟨"present", "www.foo.com", "foo.com", "A", ["x"], -1, false⟩ false
        ⟨["A", "MX"], [], .error .recordDoesNotExist, ⟨.ok (), .ok (), .ok ()⟩⟩ =
      (.failJson "TTL cannot be less than zero" false, [])
    ∧ GcdnsRecord.main ⟨"present", "", "foo.com", "A", ["x"], 300, false⟩ false
        ⟨["A", "MX"], [], .error .recordDoesNotExist, ⟨.ok (), .ok (), .ok ()⟩⟩ =
      (.crash .indexError, [])
    ∧ GcdnsZone.main ⟨"present", "", "", false⟩ false ⟨[], ⟨.ok (), .ok ()⟩⟩ =
      (.crash .indexError, []) := by
  refine ⟨?_, ?_, ?_, ?_⟩
  · exact (claim_C7_validation_failures
      ⟨"present", "www.foo.com", "foo.com", "NAPTR", ["x"], 300, false⟩ false
      ⟨["A", "MX"], [], .error .recordDoesNotExist, ⟨.ok (), .ok (), .ok ()⟩⟩
      ⟨"present", "", "", false⟩ ⟨[], ⟨.ok (), .ok ()⟩⟩
      "foo.com." "www.foo.com.").1 rfl rfl (by decide)
  · exact (claim_C7_validation_failures
      ⟨"present", "www.foo.com", "foo.com", "A", ["x"], -1, false⟩ false
      ⟨["A", "MX"], [], .error .recordDoesNotExist, ⟨.ok (), .ok (), .ok ()⟩⟩
      ⟨"present", "", "", false⟩ ⟨[], ⟨.ok (), .ok ()⟩⟩
      "foo.com." "www.foo.com.").2.1 rfl rfl (by decide) (by decide)
  · exact (claim_C7_validation_failures
      ⟨"present", "", "foo.com", "A", ["x"], 300, false⟩ false
      ⟨["A", "MX"], [], .error .recordDoesNotExist, ⟨.ok (), .ok (), .ok ()⟩⟩
      ⟨"present", "", "", false⟩ ⟨[], ⟨.ok (), .ok ()⟩⟩
      "foo.com." "rn").2.2.2.1 rfl rfl
  · exact (claim_C7_validation_failures
      ⟨"present", "", "foo.com", "A", ["x"], 300, false⟩ false
      ⟨["A", "MX"], [], .error .recordDoesNotExist, ⟨.ok (), .ok (), .ok ()⟩⟩
      ⟨"present", "", "", false⟩ ⟨[], ⟨.ok (), .ok ()⟩⟩
      "foo.com." "rn").2.2.2.2 rfl

/-- C8 (code bug): an unclassified provider error does reach the
except-Exception handler around the state dispatch, but the handler
calls `_unexpected_error_msg`, whose `pprint.pformat` lookup raises
AttributeError because `from pprint import pprint` bound the function:
the run dies with a traceback, never reporting the generic dump message
or changed=false.  Evaluated at the failing input — state=absent,
overwrite enabled, existing record, and a delete that dies with an
unclassified backend error — the module crashes with AttributeError,
and `_unexpected_error_msg` raises on every error value. -/
theorem claim_C8_code_bug :
    GcdnsRecord.main ⟨"absent", "www.foo.com", "foo.com", "A", ["1.2.3.4"], 300, true⟩ false
        ⟨["A"], [⟨"z1", "foo.com.", "", []⟩],
         .ok ⟨"www.foo.com.", "A", "foo.com.", ⟨300, ["1.2.3.4"]⟩⟩,
         ⟨.ok (), .error (.other "backend exploded"), .ok ()⟩⟩ =
      (.crash .attributeError,
       [Call.iterateZones, Call.getRecord "z1" "A:www.foo.com.",
        Call.deleteRecord ⟨"www.foo.com.", "A", "foo.com.", ⟨300, ["1.2.3.4"]⟩⟩])
    ∧ reportsChangedFalseFailure
        (GcdnsRecord.main ⟨"absent", "www.foo.com", "foo.com", "A", ["1.2.3.4"], 300, true⟩ false
          ⟨["A"], [⟨"z1", "foo.com.", "", []⟩],
           .ok ⟨"www.foo.com.", "A", "foo.com.", ⟨300, ["1.2.3.4"]⟩⟩,
           ⟨.ok (), .error (.other "backend exploded"), .ok ()⟩⟩).1 = false
    ∧ (∀ e : PyExn, _unexpected_error_msg e = .error .attributeError)
    ∧ (∀ e : PyExn, handleDispatch (.raised e) = .crash .attributeError) := by
  exact ⟨rfl, rfl, fun e => rfl, fun e => rfl⟩

/-- C9 counterexample: a provider error during the record lookup that is
not an InvalidRequestError (here a generic backend error) escapes the
lookup handler uncaught: the run crashes instead of failing with the
record-name-invalid message, contrary to the claim that any other
provider error is reported that way. -/
theorem claim_C9_counterexample :
    GcdnsRecord.main ⟨"present", "www.foo.com", "foo.com", "A", ["1.2.3.4"], 300, false⟩ false
        ⟨["A"], [⟨"z1", "foo.com.", "", []⟩], .error (.other "backend exploded"),
         ⟨.ok (), .ok (), .ok ()⟩⟩ =
      (.crash (.provider (.other "backend exploded")),
       [Call.iterateZones, Call.getRecord "z1" "A:www.foo.com."])
    ∧ isFailJson
        (GcdnsRecord.main ⟨"present", "www.foo.com", "foo.com", "A", ["1.2.3.4"], 300, false⟩ false
          ⟨["A"], [⟨"z1", "foo.com.", "", []⟩], .error (.other "backend exploded"),
           ⟨.ok (), .ok (), .ok ()⟩⟩).1 = false := by
  exact ⟨rfl, rfl⟩

/-- C9 (amended): the record lookup asks the provider for the identity
key type-colon-name; a record-does-not-exist signal is the valid absent
outcome; an InvalidRequestError during the lookup is fatal with the
record-name-invalid message and changed=false; any other provider error
propagates out of the lookup uncaught and crashes the run. -/
theorem claim_C9_record_lookup
    (p : GcdnsRecord.Params) (cm : Bool) (env : GcdnsRecord.MainEnv)
    (zn rn : String) (z : GZone)
    (hz : normName p.zone = .ok zn) (hr : normName p.record = .ok rn)
    (ht : p.type ∈ env.supportedTypes) (httl : ¬ p.ttl < 0)
    (hfz : _get_zone env.zones zn = some z) :
    (∀ t n : String, GcdnsRecord.record_id t n = t ++ ":" ++ n)
    ∧ (∀ (zone : GZone) (t n : String),
      GcdnsRecord._get_record (.error .recordDoesNotExist) zone t n =
        (.ok none, [Call.getRecord zone.id (GcdnsRecord.record_id t n)]))
    ∧ (∀ code : String, env.getRes = .error (.invalidRequest code) →
      GcdnsRecord.main p cm env =
        (.failJson ("The record name is invalid: " ++ rn) false,
         [Call.iterateZones, Call.getRecord z.id (GcdnsRecord.record_id p.type rn)]))
    ∧ (∀ e : PError, env.getRes = .error e →
       (∀ code : String, e ≠ .invalidRequest code) → e ≠ .recordDoesNotExist →
      GcdnsRecord.main p cm env =
        (.crash (.provider e),
         [Call.iterateZones, Call.getRecord z.id (GcdnsRecord.record_id p.type rn)])) := by
  refine ⟨fun t n => rfl, fun zone t n => rfl, ?_, ?_⟩
  · intro code hg
    unfold GcdnsRecord.main
    rw [hz, hr]
    simp only [ht, httl, hfz]
    unfold GcdnsRecord._get_record
    rw [hg]
    simp [ht, httl]
  · intro e hg hnir hnd
    unfold GcdnsRecord.main
    rw [hz, hr]
    simp only [ht, httl, hfz]
    unfold GcdnsRecord._get_record
    rw [hg]
    cases e with
    | recordDoesNotExist => exact absurd rfl hnd
    | invalidRequest code => exact absurd rfl (hnir code)
    | resourceExists => simp [ht, httl]
    | resourceNotFound => simp [ht, httl]
    | other info => simp [ht, httl]

/-- Witness for the amended C9 at concrete inputs: the invalid-name
failure for an InvalidRequestError during the lookup. -/
theorem claim_C9_witness :
    GcdnsRecord.main ⟨"present", "www.foo.com", "foo.com", "A", ["1.2.3.4"], 300, false⟩ false
        ⟨["A"], [⟨"z1", "foo.com.", "", []⟩], .error (.invalidRequest "invalid"),
         ⟨.ok (), .ok (), .ok ()⟩⟩ =
      (.failJson "The record name is invalid: www.foo.com." false,
       [Call.iterateZones, Call.getRecord "z1" (GcdnsRecord.record_id "A" "www.foo.com.")]) := by
  exact (claim_C9_record_lookup
    ⟨"present", "www.foo.com", "foo.com", "A", ["1.2.3.4"], 300, false⟩ false
    ⟨["A"], [⟨"z1", "foo.com.", "", []⟩], .error (.invalidRequest "invalid"),
     ⟨.ok (), .ok (), .ok ()⟩⟩
    "foo.com." "www.foo.com." ⟨"z1", "foo.com.", "", []⟩
    rfl rfl (by decide) (by decide) rfl).2.2.1 "invalid" rfl

/-- C10: when the zone lookup comes back empty the record module fails
with the zone-not-found message and changed=false immediately after the
zone scan: no record lookup and no mutation is ever issued, whatever the
requested state (present or absent). -/
theorem claim_C10_zone_not_found
    (p : GcdnsRecord.Params) (cm : Bool) (env : GcdnsRecord.MainEnv) (zn rn : String)
    (hz : normName p.zone = .ok zn) (hr : normName p.record = .ok rn)
    (ht : p.type ∈ env.supportedTypes) (httl : ¬ p.ttl < 0)
    (hfz : _get_zone env.zones zn = none) :
    GcdnsRecord.main p cm env =
      (.failJson ("The zone was not found: " ++ zn) false, [Call.iterateZones]) := by
  unfold GcdnsRecord.main
  rw [hz, hr]
  simp [ht, httl, hfz]

/-- Witness for C10 at concrete inputs: both state=present and
state=absent fail identically against a nonexistent zone. -/
theorem claim_C10_witness :
    GcdnsRecord.main ⟨"present", "www.foo.com", "foo.com", "A", ["1.2.3.4"], 300, false⟩ false
        ⟨["A"], [⟨"z1", "bar.com.", "", []⟩], .error .recordDoesNotExist, ⟨.ok (), .ok (), .ok ()⟩⟩ =
      (.failJson "The zone was not found: foo.com." false, [Call.iterateZones])
    ∧ GcdnsRecord.main ⟨"absent", "www.foo.com", "foo.com", "A", ["1.2.3.4"], 300, false⟩ false
        ⟨["A"], [⟨"z1", "bar.com.", "", []⟩], .error .recordDoesNotExist, ⟨.ok (), .ok (), .ok ()⟩⟩ =
      (.failJson "The zone was not found: foo.com." false, [Call.iterateZones]) := by
  constructor
  · exact claim_C10_zone_not_found
      ⟨"present", "www.foo.com", "foo.com", "A", ["1.2.3.4"], 300, false⟩ false
      ⟨["A"], [⟨"z1", "bar.com.", "", []⟩], .error .recordDoesNotExist, ⟨.ok (), .ok (), .ok ()⟩⟩
      "foo.com." "www.foo.com." rfl rfl (by decide) (by decide) rfl
  · exact claim_C10_zone_not_found
      ⟨"absent", "www.foo.com", "foo.com", "A", ["1.2.3.4"], 300, false⟩ false
      ⟨["A"], [⟨"z1", "bar.com.", "", []⟩], .error .recordDoesNotExist, ⟨.ok (), .ok (), .ok ()⟩⟩
      "foo.com." "www.foo.com." rfl rfl (by decide) (by decide) rfl
